import Mathlib

/-
  Verification development for the cloud-run-ingestor service of this
  repository (src/cloud-run-ingestor/{config.py, main.py, token_manager.py}).

  The relevant program state and control flow are shallowly embedded as
  executable Lean definitions: the change-stream consumer loop, the
  publisher worker loop with retry and dead-lettering, the circuit
  breaker, and the Firestore-backed token manager.  Wall-clock instants
  are modelled as natural numbers (minutes for the token-manager age
  arithmetic, seconds elsewhere); MongoDB resume tokens are modelled as
  natural numbers since the code treats them opaquely.
-/

namespace Ingestor

/-- Configuration values from `config.py` (`Config.__init__`).  Only the
fields used by the embedded components are modelled. -/
structure Config where
  tokenCheckpointEvents : Nat      -- TOKEN_CHECKPOINT_EVENTS
  tokenCheckpointSeconds : Nat     -- TOKEN_CHECKPOINT_SECONDS
  queueMaxSize : Nat               -- QUEUE_MAX_SIZE
  queuePressureThreshold : Nat     -- QUEUE_PRESSURE_THRESHOLD
  publishRetryAttempts : Nat       -- PUBLISH_RETRY_ATTEMPTS
  circuitBreakerThreshold : Nat    -- CIRCUIT_BREAKER_THRESHOLD
  circuitBreakerWindowSeconds : Nat -- CIRCUIT_BREAKER_WINDOW_SECONDS
  oplogWindowHours : Nat           -- OPLOG_WINDOW_HOURS
  resumeBufferMinutes : Nat        -- RESUME_BUFFER_MINUTES
  safeStartHours : Nat             -- SAFE_START_HOURS
  deriving DecidableEq, Repr

/-- The environment-variable defaults of `config.py`. -/
def defaultConfig : Config :=
  { tokenCheckpointEvents := 1000
    tokenCheckpointSeconds := 30
    queueMaxSize := 10000
    queuePressureThreshold := 8000
    publishRetryAttempts := 3
    circuitBreakerThreshold := 100
    circuitBreakerWindowSeconds := 300
    oplogWindowHours := 24
    resumeBufferMinutes := 5
    safeStartHours := 2 }

/-- The configuration of the concrete scenarios in the spec (checkpoint
thresholds (100 events, 30 s); queue capacity 10 with high-water mark 0.8). -/
def scenarioConfig : Config :=
  { defaultConfig with
    tokenCheckpointEvents := 100
    queueMaxSize := 10
    queuePressureThreshold := 8 }

/-- `AsyncChangeStreamConsumer._should_checkpoint` (main.py lines 417-429):
checkpoint when the events-since-checkpoint count reaches
`TOKEN_CHECKPOINT_EVENTS` or the elapsed time since the last save reaches
`TOKEN_CHECKPOINT_SECONDS`. -/
def shouldCheckpoint (cfg : Config) (eventsSinceCheckpoint elapsedSeconds : Nat) : Bool :=
  decide (eventsSinceCheckpoint ≥ cfg.tokenCheckpointEvents) ||
    decide (elapsedSeconds ≥ cfg.tokenCheckpointSeconds)

/-- The circuit-breaker fields of `AsyncPublisher` (main.py lines 500-502):
`dlq_window_count` and `last_dlq_check`. -/
structure CircuitState where
  dlqWindowCount : Nat
  lastDlqCheck : Nat
  deriving DecidableEq, Repr

/-- `AsyncPublisher._should_circuit_break` (main.py lines 719-733): first
reset the window counter if more than `CIRCUIT_BREAKER_WINDOW_SECONDS` have
passed since `last_dlq_check`, then break iff the window count is strictly
greater than `CIRCUIT_BREAKER_THRESHOLD`.  Returns the decision together
with the updated state. -/
def shouldCircuitBreak (cfg : Config) (s : CircuitState) (now : Nat) :
    Bool × CircuitState :=
  let s1 := if now - s.lastDlqCheck > cfg.circuitBreakerWindowSeconds
            then { dlqWindowCount := 0, lastDlqCheck := now }
            else s
  (decide (s1.dlqWindowCount > cfg.circuitBreakerThreshold), s1)

/-- The counter increments performed by `AsyncPublisher._send_to_dlq`
(main.py lines 710-712) after a successful dead-letter publish. -/
def recordDlq (s : CircuitState) : CircuitState :=
  { s with dlqWindowCount := s.dlqWindowCount + 1 }

/-- The retry loop of `AsyncPublisher._publish_event` (main.py lines
583-656): attempts are indexed `0, 1, ...`; the loop stops at the first
successful attempt.  `f i` tells whether attempt `i` succeeds. -/
def attemptLoop (f : Nat → Bool) (i : Nat) : Nat → Bool
  | 0 => false
  | n + 1 => if f i then true else attemptLoop f (i + 1) n

/-- Outcome of `_publish_event`: the returned boolean, and the `attempts`
fields of the dead-letter records emitted via `_send_to_dlq`. -/
structure PublishResult where
  success : Bool
  dlqAttemptsFields : List Nat
  deriving DecidableEq, Repr

/-- `AsyncPublisher._publish_event` together with `_send_to_dlq` (main.py
lines 562-717).  With `PUBLISH_RETRY_ATTEMPTS = 0` the `for` loop body never
runs and the function falls off the end of the `try` block, returning
`None` (falsy) with no dead-letter.  Otherwise: success at any attempt
returns `True`; if the last attempt fails its exception is re-raised and
caught by the outer handler, which calls `_send_to_dlq`.  `_send_to_dlq`
produces a record (whose `_error_context['attempts']` is
`PUBLISH_RETRY_ATTEMPTS`) only when a DLQ topic is configured and the DLQ
publish itself succeeds. -/
def publishEvent (cfg : Config) (f : Nat → Bool)
    (dlqConfigured dlqPublishOk : Bool) : PublishResult :=
  if cfg.publishRetryAttempts = 0 then ⟨false, []⟩
  else if attemptLoop f 0 cfg.publishRetryAttempts then ⟨true, []⟩
  else ⟨false, if dlqConfigured && dlqPublishOk then [cfg.publishRetryAttempts] else []⟩

/-- State visible to one publisher worker: the shared event queue (as the
list of pending event ids, head = next to dequeue), plus the events this
worker has published successfully and those that went to the DLQ. -/
structure WorkerState where
  queue : List Nat
  published : List Nat
  deadLettered : List Nat
  deriving DecidableEq, Repr

/-- One iteration of `AsyncPublisher._worker`'s `while` loop (main.py lines
527-558).  An empty queue models the `asyncio.TimeoutError` branch
(`continue`).  Otherwise the worker dequeues one event; if the circuit
breaker is tripped it sleeps and `continue`s — the dequeued event is
discarded.  Otherwise `_publish_event` runs; `publishOk` is its boolean
result (on `False` the event was routed to the DLQ inside
`_publish_event`). -/
def workerIteration (s : WorkerState) (tripped publishOk : Bool) : WorkerState :=
  match s.queue with
  | [] => s
  | e :: rest =>
    if tripped then { s with queue := rest }
    else if publishOk then
      { queue := rest, published := s.published ++ [e], deadLettered := s.deadLettered }
    else
      { queue := rest, published := s.published, deadLettered := s.deadLettered ++ [e] }

deriving instance DecidableEq for Except

/-- One change event as seen by `_consume_change_stream`: its position
token (the stream's `resume_token` after delivering it), the wall-clock
second at which it is processed, whether the `event_queue.put` inside
`_process_change` succeeds (`False` models `put` raising), and the result
of `token_manager.save_resume_token` in case a checkpoint fires at this
event (`Except.error` models the call raising, `Except.ok b` its returned
boolean). -/
structure ChangeEvent where
  token : Nat
  time : Nat
  enqueueOk : Bool
  saveResult : Except Unit Bool
  deriving DecidableEq, Repr

/-- The consumer-side state of `AsyncChangeStreamConsumer` (main.py lines
112-121): `resume_token`, `last_token_save_time`, `last_token_save_count`,
`events_since_checkpoint`, the event queue contents (tokens of enqueued
events, in order), and the sequence of tokens successfully written to the
checkpoint store. -/
structure ConsumerState where
  resumeToken : Option Nat
  lastTokenSaveTime : Nat
  lastTokenSaveCount : Nat
  eventsSinceCheckpoint : Nat
  queue : List Nat
  savedCheckpoints : List Nat
  deriving DecidableEq, Repr

/-- The state right after `__init__` (main.py lines 112-121): no resume
token, empty queue, `last_token_save_time = time.time()`. -/
def initConsumer (startTime : Nat) : ConsumerState :=
  { resumeToken := none
    lastTokenSaveTime := startTime
    lastTokenSaveCount := 0
    eventsSinceCheckpoint := 0
    queue := []
    savedCheckpoints := [] }

/-- `AsyncChangeStreamConsumer._process_change` (main.py lines 309-379):
everything runs inside one `try` block whose `except` only logs, so a
failing `event_queue.put` leaves the queue unchanged and the method
returns normally. -/
def processChange (s : ConsumerState) (e : ChangeEvent) : ConsumerState :=
  if e.enqueueOk then { s with queue := s.queue ++ [e.token] } else s

/-- `AsyncChangeStreamConsumer._checkpoint_token` (main.py lines 431-446):
does nothing when `resume_token` is unset; otherwise awaits
`save_resume_token` and — whenever that call returns rather than raises —
updates `last_token_save_time`, sets `last_token_save_count` to the
pre-reset event count and resets `events_since_checkpoint` to 0,
regardless of the returned boolean.  Only a `True` return corresponds to
an actual store write.  If `save_resume_token` raises, the `except` branch
only logs and records a metric, leaving every field unchanged. -/
def checkpointToken (s : ConsumerState) (now : Nat)
    (saveResult : Except Unit Bool) : ConsumerState :=
  match s.resumeToken with
  | none => s
  | some t =>
    match saveResult with
    | Except.error _ => s
    | Except.ok saved =>
      { s with
        savedCheckpoints := if saved then s.savedCheckpoints ++ [t] else s.savedCheckpoints
        lastTokenSaveTime := now
        lastTokenSaveCount := s.eventsSinceCheckpoint
        eventsSinceCheckpoint := 0 }

/-- Result of one iteration of the `async for` body: the next state and
whether the backpressure pause (`await asyncio.sleep(0.1)`) was inserted. -/
structure StepOut where
  state : ConsumerState
  backpressurePause : Bool
  deriving DecidableEq, Repr

/-- One iteration of the `async for change in self.change_stream` body of
`_consume_change_stream` (main.py lines 235-268): process the change (the
enqueue may fail inside `_process_change`), then unconditionally set
`resume_token` to the stream's token for this event and increment
`events_since_checkpoint`; checkpoint if `_should_checkpoint` fires; then
pause iff the queue size strictly exceeds `QUEUE_PRESSURE_THRESHOLD`. -/
def consumeStep (cfg : Config) (s : ConsumerState) (e : ChangeEvent) : StepOut :=
  let s1 := processChange s e
  let s2 := { s1 with
              resumeToken := some e.token
              eventsSinceCheckpoint := s1.eventsSinceCheckpoint + 1 }
  let s3 := if shouldCheckpoint cfg s2.eventsSinceCheckpoint (e.time - s2.lastTokenSaveTime)
            then checkpointToken s2 e.time e.saveResult
            else s2
  ⟨s3, decide (s3.queue.length > cfg.queuePressureThreshold)⟩

/-- The consumer loop run over a finite sequence of delivered events. -/
def consumeRun (cfg : Config) (s : ConsumerState) (events : List ChangeEvent) :
    ConsumerState :=
  events.foldl (fun st e => (consumeStep cfg st e).state) s

/-- `AsyncChangeStreamConsumer.stop` (main.py lines 448-469), restricted to
its checkpoint effect: if a resume token is held, perform one final
`_checkpoint_token`. -/
def stopConsumer (s : ConsumerState) (now : Nat)
    (saveResult : Except Unit Bool) : ConsumerState :=
  match s.resumeToken with
  | none => s
  | some _ => checkpointToken s now saveResult

/-- Operations on the bounded `asyncio.Queue(maxsize = QUEUE_MAX_SIZE)`
(main.py line 121). -/
inductive QueueOp
  | enq (x : Nat)
  | deq
  deriving DecidableEq, Repr

/-- Semantics of the bounded queue: `put` appends when the queue is below
capacity and otherwise waits (the caller blocks; nothing is dropped and the
queue is unchanged while blocked); `get` removes the head, blocking on an
empty queue. -/
def queueStep (cap : Nat) (q : List Nat) : QueueOp → List Nat
  | QueueOp.enq x => if q.length < cap then q ++ [x] else q
  | QueueOp.deq => q.tail

/-- A sequence of queue operations applied to the initially empty queue. -/
def queueRun (cap : Nat) (ops : List QueueOp) : List Nat :=
  ops.foldl (queueStep cap) []

/-- Contents of the token document in Firestore, as far as the read path
inspects them: presence of the `timestamp` field and its value (minutes),
presence of the `token` field and the (opaque, here numeric) token. -/
structure StoredDoc where
  hasTimestamp : Bool
  savedAt : Nat
  hasToken : Bool
  token : Nat
  deriving DecidableEq, Repr

/-- The token manager as seen by the read path: Firestore availability
(`self.db`), whether the document read raises (store unreachable), the
stored document, and the in-process cache `last_checkpoint_time`. -/
structure TokenStoreView where
  dbAvailable : Bool
  readRaises : Bool
  stored : Option StoredDoc
  cachedCheckpointTime : Option Nat
  deriving DecidableEq, Repr

/-- `TokenManager.get_resume_token` (token_manager.py lines 257-341).
Returns `none` when Firestore is unavailable, when the read raises (the
`except` branch catches and returns `None`), when no document exists, when
the document has a `timestamp` whose age strictly exceeds twice
`OPLOG_WINDOW_HOURS` (a merely stale token — older than the window but at
most twice it — is only flagged and still returned), or when the `token`
field is missing.  Times are in minutes, so the hour comparison is scaled
by 60. -/
def getResumeToken (cfg : Config) (tm : TokenStoreView) (now : Nat) :
    Option StoredDoc :=
  if !tm.dbAvailable then none
  else if tm.readRaises then none
  else
    match tm.stored with
    | none => none
    | some d =>
      if d.hasTimestamp && decide (now - d.savedAt > 2 * (60 * cfg.oplogWindowHours))
      then none
      else if !d.hasToken then none
      else some d

/-- `TokenManager.get_last_checkpoint_time` (token_manager.py lines
343-366): the in-process cache wins; otherwise the stored document is read
again and its `timestamp` returned when present. -/
def getLastCheckpointTime (cfg : Config) (tm : TokenStoreView) (now : Nat) :
    Option Nat :=
  match tm.cachedCheckpointTime with
  | some t => some t
  | none =>
    match getResumeToken cfg tm now with
    | some d => if d.hasTimestamp then some d.savedAt else none
    | none => none

/-- The value returned by `AsyncChangeStreamConsumer._get_resume_point`:
a native cursor token, a `datetime` (timestamp resume), a BSON
`Timestamp`, or `None` (resume from now — the `except` branch of
`_get_resume_point`). -/
inductive ResumePoint
  | nativeToken (tok : Nat)
  | timestampResume (t : Nat)
  | mongoTimestamp (t : Nat)
  | fromNow
  deriving DecidableEq, Repr

/-- `AsyncChangeStreamConsumer._get_resume_point` (main.py lines 277-307):
tier 1 returns the stored token when `get_resume_token` yields one; tier 2
returns `last_checkpoint - RESUME_BUFFER_MINUTES` as a `datetime` when a
checkpoint time is known; tier 3 returns `now - SAFE_START_HOURS` as a
BSON `Timestamp`.  The tier-4 `except` branch (returning `None`) is
unreachable here because `get_resume_token` and `get_last_checkpoint_time`
catch their own store errors internally. -/
def getResumePoint (cfg : Config) (tm : TokenStoreView) (now : Nat) :
    ResumePoint :=
  match getResumeToken cfg tm now with
  | some d => ResumePoint.nativeToken d.token
  | none =>
    match getLastCheckpointTime cfg tm now with
    | some t => ResumePoint.timestampResume (t - cfg.resumeBufferMinutes)
    | none => ResumePoint.mongoTimestamp (now - 60 * cfg.safeStartHours)

/-- Firestore field values occurring in the token documents. -/
inductive FsValue
  | strVal (s : String)
  | numVal (n : Nat)
  | timeVal (t : Nat)
  | nullVal
  deriving DecidableEq, Repr

/-- A Firestore document as an ordered field list. -/
abbrev DocData := List (String × FsValue)

/-- The primitive Firestore calls issued by the token manager:
`document(key).get()`, `document(key).set(data, merge)`,
`document(key).update(data)` and `document(key).delete()`. -/
inductive StoreAction
  | readDoc (key : String)
  | setDoc (key : String) (data : DocData) (merge : Bool)
  | updateDoc (key : String) (data : DocData)
  | deleteDoc (key : String)
  deriving DecidableEq, Repr

/-- The backup document id built in `TokenManager.clear_token`
(token_manager.py line 387). -/
def backupDocId (docId : String) (now : Nat) : String :=
  docId ++ "_backup_" ++ toString now

/-- `TokenManager.clear_token` (token_manager.py lines 368-402) as the
sequence of store calls it issues: nothing when Firestore is unavailable;
otherwise a read of the token document, then — if it exists — a write of
its full contents (plus `deleted_at` / `deleted_by` markers) to the backup
id, and finally the delete of the token document. -/
def clearTokenActions (docId : String) (dbAvailable : Bool)
    (stored : Option DocData) (now : Nat) : List StoreAction :=
  if !dbAvailable then []
  else
    StoreAction.readDoc docId ::
      (match stored with
       | some d =>
         [StoreAction.setDoc (backupDocId docId now)
            (d ++ [("deleted_at", FsValue.timeVal now),
                   ("deleted_by", FsValue.strVal "manual_clear")]) false,
          StoreAction.deleteDoc docId]
       | none => [StoreAction.deleteDoc docId])

/-- The `token_data` document built in `TokenManager.save_resume_token`
(token_manager.py lines 147-167).  The nested `metadata` map is elided;
its presence does not affect any claim. -/
def tokenDocData (cfg : Config) (token now eventsProcessed totalSaves : Nat) :
    DocData :=
  [("token", FsValue.strVal (toString token)),
   ("timestamp", FsValue.timeVal now),
   ("events_since_checkpoint", FsValue.numVal eventsProcessed),
   ("total_events", FsValue.numVal (totalSaves * cfg.tokenCheckpointEvents + eventsProcessed)),
   ("save_count", FsValue.numVal (totalSaves + 1)),
   ("last_error", FsValue.nullVal),
   ("consecutive_failures", FsValue.numVal 0),
   ("token_size_bytes", FsValue.numVal (toString token).length),
   ("save_duration_ms", FsValue.nullVal)]

/-- The error document written by `TokenManager._save_error_state`
(token_manager.py lines 404-428). -/
def errorStateData (now failedSaves consecutiveFailures totalSaves : Nat)
    (lastCheckpointTime : Option Nat) : DocData :=
  [("last_error", FsValue.strVal "error"),
   ("error_timestamp", FsValue.timeVal now),
   ("failed_save_count", FsValue.numVal failedSaves),
   ("consecutive_failures", FsValue.numVal consecutiveFailures),
   ("operation_duration_ms", FsValue.numVal 0),
   ("last_successful_save",
     match lastCheckpointTime with
     | some t => FsValue.timeVal t
     | none => FsValue.nullVal),
   ("total_successful_saves", FsValue.numVal totalSaves)]

/-- The mutable fields of `TokenManager` touched by `save_resume_token`
(token_manager.py lines 39-49). -/
structure TokenManagerState where
  dbAvailable : Bool
  saveInProgress : Bool
  lastSavedToken : Option Nat
  lastCheckpointTime : Option Nat
  totalSaves : Nat
  failedSaves : Nat
  consecutiveFailures : Nat
  deriving DecidableEq, Repr

/-- Outcome of `save_resume_token`: the returned boolean, the state after
the call, and the store calls issued during it. -/
structure SaveOutcome where
  result : Bool
  state : TokenManagerState
  actions : List StoreAction
  deriving DecidableEq, Repr

/-- `TokenManager.save_resume_token` (token_manager.py lines 112-255).
When `self.db` is `None` or a save is already in progress, it returns
`False` immediately with no store call and no state change.  Otherwise the
token document is written with merge semantics; on success (`writeOk`) the
cache (`last_saved_token`, `last_checkpoint_time`) is updated,
`total_saves` incremented, `consecutive_failures` reset, and `True`
returned (with an extra `update` call when the save was slow).  When the
write raises, the failure counters are incremented, `_save_error_state`
writes the error document, and `False` is returned.  `save_in_progress` is
set on entry and cleared in the `finally` block, so it is unchanged
overall. -/
def saveResumeToken (cfg : Config) (docId : String) (s : TokenManagerState)
    (token now eventsProcessed : Nat) (writeOk slowSave : Bool) : SaveOutcome :=
  if !s.dbAvailable then ⟨false, s, []⟩
  else if s.saveInProgress then ⟨false, s, []⟩
  else if writeOk then
    ⟨true,
     { s with
       lastSavedToken := some token
       lastCheckpointTime := some now
       totalSaves := s.totalSaves + 1
       consecutiveFailures := 0 },
     StoreAction.setDoc docId (tokenDocData cfg token now eventsProcessed s.totalSaves) true ::
       (if slowSave
        then [StoreAction.updateDoc docId
               [("save_duration_ms", FsValue.numVal 0),
                ("slow_save_warning", FsValue.numVal 1)]]
        else [])⟩
  else
    ⟨false,
     { s with
       failedSaves := s.failedSaves + 1
       consecutiveFailures := s.consecutiveFailures + 1 },
     [StoreAction.setDoc docId (tokenDocData cfg token now eventsProcessed s.totalSaves) true,
      StoreAction.setDoc (docId ++ "_error")
        (errorStateData now (s.failedSaves + 1) (s.consecutiveFailures + 1)
          s.totalSaves s.lastCheckpointTime) true]⟩

/-- The store calls issued by the read path `get_resume_token`
(token_manager.py lines 266-274): a single document read when Firestore is
available, nothing otherwise. -/
def getResumeTokenActions (docId : String) (dbAvailable : Bool) :
    List StoreAction :=
  if !dbAvailable then [] else [StoreAction.readDoc docId]

/-- The store calls issued by `TokenManager.initialize`
(token_manager.py lines 57-110): the connection-test read when Firestore
is enabled, nothing otherwise. -/
def initTokenManagerActions (docId : String) (enableFirestore : Bool) :
    List StoreAction :=
  if !enableFirestore then [] else [StoreAction.readDoc docId]

/-- The store calls issued by `TokenManager._save_error_state`
(token_manager.py lines 404-428): one merge write to the `_error`
document. -/
def saveErrorStateActions (docId : String) (dbAvailable : Bool)
    (errData : DocData) : List StoreAction :=
  if !dbAvailable then []
  else [StoreAction.setDoc (docId ++ "_error") errData true]

/-! ### Helper lemmas -/

/-- If some attempt with index below `n` (counting from `i`) succeeds, the
retry loop reports success. -/
theorem attemptLoop_eq_true_of_success (f : Nat → Bool) :
    ∀ n i k, k < n → f (i + k) = true → attemptLoop f i n = true := by
  intro n
  induction n with
  | zero => intro i k hk _; exact absurd hk (Nat.not_lt_zero k)
  | succ n ih =>
    intro i k hk hf
    by_cases hfi : f i = true
    · simp [attemptLoop, hfi]
    · have hfi' : f i = false := by simpa using hfi
      cases k with
      | zero => rw [Nat.add_zero] at hf; exact absurd hf hfi
      | succ k =>
        have hshift : i + (k + 1) = (i + 1) + k := by omega
        rw [hshift] at hf
        simp [attemptLoop, hfi']
        exact ih (i + 1) k (by omega) hf

/-- If every attempt with index below `n` (counting from `i`) fails, the
retry loop reports failure. -/
theorem attemptLoop_eq_false_of_all_fail (f : Nat → Bool) :
    ∀ n i, (∀ k, k < n → f (i + k) = false) → attemptLoop f i n = false := by
  intro n
  induction n with
  | zero => intro i _; rfl
  | succ n ih =>
    intro i h
    have h0 : f i = false := by simpa using h 0 (Nat.succ_pos n)
    simp [attemptLoop, h0]
    refine ih (i + 1) (fun k hk => ?_)
    have := h (k + 1) (by omega)
    rwa [show i + (k + 1) = (i + 1) + k by omega] at this

/-- One bounded-queue operation preserves the capacity bound. -/
theorem queueStep_length_le (cap : Nat) (q : List Nat) (op : QueueOp)
    (h : q.length ≤ cap) : (queueStep cap q op).length ≤ cap := by
  cases op with
  | enq x =>
    simp only [queueStep]
    split
    · simp only [List.length_append, List.length_cons, List.length_nil]
      omega
    · exact h
  | deq =>
    simp only [queueStep, List.length_tail]
    omega

/-- Any sequence of bounded-queue operations preserves the capacity
bound. -/
theorem foldl_queueStep_length_le (cap : Nat) :
    ∀ (ops : List QueueOp) (q : List Nat), q.length ≤ cap →
      (ops.foldl (queueStep cap) q).length ≤ cap := by
  intro ops
  induction ops with
  | nil => intro q h; simpa using h
  | cons op ops ih => intro q h; exact ih _ (queueStep_length_le cap q op h)

/-- `_checkpoint_token` never touches the event queue. -/
theorem checkpointToken_queue (s : ConsumerState) (now : Nat)
    (r : Except Unit Bool) : (checkpointToken s now r).queue = s.queue := by
  cases h : s.resumeToken <;> cases r <;> simp [checkpointToken, h]

/-- `_checkpoint_token` never changes the in-memory resume token. -/
theorem checkpointToken_resumeToken (s : ConsumerState) (now : Nat)
    (r : Except Unit Bool) :
    (checkpointToken s now r).resumeToken = s.resumeToken := by
  cases h : s.resumeToken <;> cases r <;> simp [checkpointToken, h]

/-- After one loop iteration the queue has gained exactly the processed
event's token when its enqueue succeeded and nothing otherwise. -/
theorem consumeStep_state_queue (cfg : Config) (s : ConsumerState)
    (e : ChangeEvent) :
    (consumeStep cfg s e).state.queue =
      s.queue ++ (if e.enqueueOk then [e.token] else []) := by
  cases he : e.enqueueOk <;>
    simp [consumeStep, processChange, he, apply_ite ConsumerState.queue,
      checkpointToken_queue]

/-- After one loop iteration the in-memory resume token is the processed
event's token, whether or not the enqueue succeeded. -/
theorem consumeStep_state_resumeToken (cfg : Config) (s : ConsumerState)
    (e : ChangeEvent) :
    (consumeStep cfg s e).state.resumeToken = some e.token := by
  simp [consumeStep, apply_ite ConsumerState.resumeToken,
    checkpointToken_resumeToken]

/-- Over a run in which every enqueue succeeds, the queue receives exactly
the tokens of the processed events, in order. -/
theorem consumeRun_queue (cfg : Config) :
    ∀ (events : List ChangeEvent) (s : ConsumerState),
      (∀ e ∈ events, e.enqueueOk = true) →
      (consumeRun cfg s events).queue = s.queue ++ events.map ChangeEvent.token := by
  intro events
  induction events with
  | nil => intro s _; simp [consumeRun]
  | cons e es ih =>
    intro s h
    have he : e.enqueueOk = true := h e (List.mem_cons_self e es)
    have hes : ∀ x ∈ es, x.enqueueOk = true :=
      fun x hx => h x (List.mem_cons_of_mem e hx)
    show (consumeRun cfg ((consumeStep cfg s e).state) es).queue = _
    rw [ih _ hes, consumeStep_state_queue, he]
    simp

/-- After a nonempty run the in-memory resume token is the last processed
event's token. -/
theorem consumeRun_resumeToken (cfg : Config) :
    ∀ (events : List ChangeEvent) (s : ConsumerState), events ≠ [] →
      (consumeRun cfg s events).resumeToken =
        (events.map ChangeEvent.token).getLast? := by
  intro events
  induction events with
  | nil => intro s h; exact absurd rfl h
  | cons e es ih =>
    intro s _
    cases es with
    | nil =>
      show (consumeStep cfg s e).state.resumeToken = _
      rw [consumeStep_state_resumeToken]
      simp
    | cons e2 es2 =>
      show (consumeRun cfg ((consumeStep cfg s e).state) (e2 :: es2)).resumeToken = _
      rw [ih _ (by simp)]
      simp [List.getLast?_cons_cons]

/-- The final checkpoint in `stop`: with the held resume token `t` and a
successful save, the store gains exactly `t` and the queue is untouched. -/
theorem stopConsumer_final (s : ConsumerState) (now : Nat) (t : Nat)
    (h : s.resumeToken = some t) :
    (stopConsumer s now (Except.ok true)).savedCheckpoints =
      s.savedCheckpoints ++ [t] ∧
    (stopConsumer s now (Except.ok true)).queue = s.queue := by
  simp [stopConsumer, checkpointToken, h]

/-! ### Claims -/

/-- Claim C6: with checkpoint thresholds (100 events, 30 seconds),
`_should_checkpoint` returns true after 50 events and 35 elapsed seconds
(time threshold wins) and after 100 events and 5 elapsed seconds (count
threshold wins); below both thresholds it returns false. -/
theorem c6_checkpoint_thresholds :
    shouldCheckpoint scenarioConfig 50 35 = true ∧
    shouldCheckpoint scenarioConfig 100 5 = true ∧
    ∀ events elapsed : Nat, events < 100 → elapsed < 30 →
      shouldCheckpoint scenarioConfig events elapsed = false := by
  refine ⟨by decide, by decide, ?_⟩
  intro events elapsed h1 h2
  simp only [shouldCheckpoint, scenarioConfig, defaultConfig, Bool.or_eq_false_iff,
    decide_eq_false_iff_not, not_le]
  exact ⟨h1, h2⟩

/-- Witness for C6 at a concrete below-both-thresholds input. -/
theorem c6_checkpoint_thresholds_witness :
    shouldCheckpoint scenarioConfig 10 10 = false :=
  c6_checkpoint_thresholds.2.2 10 10 (by decide) (by decide)

/-- Claim C3, counterexample: with `CIRCUIT_BREAKER_THRESHOLD = 2`, after
exactly 2 dead-letter events recorded within one window
`_should_circuit_break` returns `false` (the comparison is strict), not
`true` as claimed. -/
theorem c3_counterexample :
    (shouldCircuitBreak { defaultConfig with circuitBreakerThreshold := 2 }
      (recordDlq (recordDlq { dlqWindowCount := 0, lastDlqCheck := 0 })) 10).1
      = false := by decide

/-- Claim C3 as amended: within the window, `_should_circuit_break`
returns true iff the recorded dead-letter count strictly exceeds the
threshold (so `threshold + 1` events are needed); once the window has
elapsed, the count is reset to zero and the call returns false. -/
theorem c3_amended_break_behavior (cfg : Config) (s : CircuitState) (now : Nat) :
    (now - s.lastDlqCheck ≤ cfg.circuitBreakerWindowSeconds →
      ((shouldCircuitBreak cfg s now).1 = true ↔
        cfg.circuitBreakerThreshold < s.dlqWindowCount)) ∧
    (cfg.circuitBreakerWindowSeconds < now - s.lastDlqCheck →
      (shouldCircuitBreak cfg s now).1 = false ∧
      (shouldCircuitBreak cfg s now).2 =
        { dlqWindowCount := 0, lastDlqCheck := now }) := by
  constructor
  · intro h
    have hcond : ¬ (now - s.lastDlqCheck > cfg.circuitBreakerWindowSeconds) :=
      Nat.not_lt.mpr h
    simp [shouldCircuitBreak, hcond]
  · intro h
    simp [shouldCircuitBreak, h]

/-- Witness for C3's amended statement: threshold 2 trips at 3 recorded
dead-letters within the window, and a rolled-over window reports false. -/
theorem c3_amended_break_behavior_witness :
    (shouldCircuitBreak { defaultConfig with circuitBreakerThreshold := 2 }
      { dlqWindowCount := 3, lastDlqCheck := 0 } 10).1 = true ∧
    (shouldCircuitBreak { defaultConfig with circuitBreakerThreshold := 2 }
      { dlqWindowCount := 3, lastDlqCheck := 0 } 400).1 = false :=
  ⟨((c3_amended_break_behavior _ _ _).1 (by decide)).mpr (by decide),
   ((c3_amended_break_behavior _ _ _).2 (by decide)).1⟩

/-- Claim C2 (code bug): when the circuit breaker is tripped at the moment
a worker has dequeued an event, `_worker` sleeps and `continue`s, and the
dequeued event (here event 1) is discarded — it is no longer in the queue,
was not published, and was not dead-lettered; the next iteration takes the
next event.  The claim (and spec §4.4) say the same event is retried
without being lost. -/
theorem c2_tripped_worker_drops_event :
    workerIteration { queue := [1, 2], published := [], deadLettered := [] }
      true true
      = { queue := [2], published := [], deadLettered := [] } := by decide

/-- Claim C7, counterexample: `save_resume_token` reports a failed store
write by returning `False` (its own `except` catches the error), yet
`_checkpoint_token` ignores the returned boolean: with 5 events since the
last checkpoint and no store write happening (`savedCheckpoints` stays
empty), `events_since_checkpoint` is still reset to 0 and
`last_token_save_time` still advances to 130 — the claim says both keep
their prior values on a failed save. -/
theorem c7_counterexample :
    (checkpointToken
      { resumeToken := some 7, lastTokenSaveTime := 100, lastTokenSaveCount := 0,
        eventsSinceCheckpoint := 5, queue := [7], savedCheckpoints := [] }
      130 (Except.ok false)).eventsSinceCheckpoint = 0 ∧
    (checkpointToken
      { resumeToken := some 7, lastTokenSaveTime := 100, lastTokenSaveCount := 0,
        eventsSinceCheckpoint := 5, queue := [7], savedCheckpoints := [] }
      130 (Except.ok false)).lastTokenSaveTime = 130 ∧
    (checkpointToken
      { resumeToken := some 7, lastTokenSaveTime := 100, lastTokenSaveCount := 0,
        eventsSinceCheckpoint := 5, queue := [7], savedCheckpoints := [] }
      130 (Except.ok false)).savedCheckpoints = [] := by decide

/-- Claim C7 as amended: a raised `save_resume_token` is caught by
`_checkpoint_token` and leaves every consumer field unchanged (so the
checkpoint is retried on a later cycle and processing continues); but when
`save_resume_token` returns — whether `True` (store written) or `False`
(store not written) — the bookkeeping is reset either way:
`events_since_checkpoint` becomes 0, `last_token_save_time` advances, and
the store gains the token only in the `True` case. -/
theorem c7_amended_checkpoint_bookkeeping (s : ConsumerState) (now : Nat) :
    checkpointToken s now (Except.error ()) = s ∧
    (∀ t ok, s.resumeToken = some t →
      (checkpointToken s now (Except.ok ok)).eventsSinceCheckpoint = 0 ∧
      (checkpointToken s now (Except.ok ok)).lastTokenSaveTime = now ∧
      (checkpointToken s now (Except.ok ok)).savedCheckpoints =
        (if ok then s.savedCheckpoints ++ [t] else s.savedCheckpoints)) := by
  constructor
  · cases h : s.resumeToken <;> simp [checkpointToken, h]
  · intro t ok h
    simp [checkpointToken, h]

/-- Witness for C7's amended statement at a successful concrete save. -/
theorem c7_amended_checkpoint_bookkeeping_witness :
    (checkpointToken
      { resumeToken := some 7, lastTokenSaveTime := 100, lastTokenSaveCount := 0,
        eventsSinceCheckpoint := 5, queue := [7], savedCheckpoints := [] }
      130 (Except.ok true)).eventsSinceCheckpoint = 0 ∧
    (checkpointToken
      { resumeToken := some 7, lastTokenSaveTime := 100, lastTokenSaveCount := 0,
        eventsSinceCheckpoint := 5, queue := [7], savedCheckpoints := [] }
      130 (Except.ok true)).lastTokenSaveTime = 130 ∧
    (checkpointToken
      { resumeToken := some 7, lastTokenSaveTime := 100, lastTokenSaveCount := 0,
        eventsSinceCheckpoint := 5, queue := [7], savedCheckpoints := [] }
      130 (Except.ok true)).savedCheckpoints =
        (if true then [] ++ [7] else []) :=
  (c7_amended_checkpoint_bookkeeping _ 130).2 7 true rfl

/-- Claim C5: with retry limit `R = PUBLISH_RETRY_ATTEMPTS > 0`, a publish
that fails the first `R - 1` attempts and succeeds on the last is one
success with zero dead-letters; a publish failing all `R` attempts yields
(with a configured, working DLQ) exactly one dead-letter record whose
`attempts` field equals `R`. -/
theorem c5_retry_and_dlq_outcomes (cfg : Config) (f : Nat → Bool)
    (dlqConfigured dlqPublishOk : Bool) (hR : 0 < cfg.publishRetryAttempts) :
    ((∀ i, i < cfg.publishRetryAttempts - 1 → f i = false) →
      f (cfg.publishRetryAttempts - 1) = true →
      publishEvent cfg f dlqConfigured dlqPublishOk = ⟨true, []⟩) ∧
    ((∀ i, i < cfg.publishRetryAttempts → f i = false) →
      dlqConfigured = true → dlqPublishOk = true →
      publishEvent cfg f dlqConfigured dlqPublishOk =
        ⟨false, [cfg.publishRetryAttempts]⟩) := by
  constructor
  · intro _ hsucc
    have hloop : attemptLoop f 0 cfg.publishRetryAttempts = true :=
      attemptLoop_eq_true_of_success f cfg.publishRetryAttempts 0
        (cfg.publishRetryAttempts - 1) (by omega) (by simpa using hsucc)
    simp [publishEvent, Nat.pos_iff_ne_zero.mp hR, hloop]
  · intro hfail hc hok
    have hloop : attemptLoop f 0 cfg.publishRetryAttempts = false :=
      attemptLoop_eq_false_of_all_fail f cfg.publishRetryAttempts 0
        (fun k hk => by simpa using hfail k hk)
    simp [publishEvent, Nat.pos_iff_ne_zero.mp hR, hloop, hc, hok]

/-- Witness for C5 with the default `R = 3`: failing attempts 0 and 1 and
succeeding at attempt 2 gives a success with no dead-letter; failing all
three gives one dead-letter with `attempts = 3`. -/
theorem c5_retry_and_dlq_outcomes_witness :
    publishEvent defaultConfig (fun i => decide (i = 2)) true true = ⟨true, []⟩ ∧
    publishEvent defaultConfig (fun _ => false) true true = ⟨false, [3]⟩ :=
  ⟨(c5_retry_and_dlq_outcomes defaultConfig _ true true (by decide)).1
      (by decide) (by decide),
   (c5_retry_and_dlq_outcomes defaultConfig _ true true (by decide)).2
      (fun _ _ => rfl) rfl rfl⟩

/-- Claim C1, counterexample: two events with strictly increasing tokens
1 and 2; the enqueue of event 2 fails inside `_process_change` (whose
`except` swallows the error), yet the loop still advances `resume_token`
to 2, and the final checkpoint at `stop()` writes 2.  The last event
successfully enqueued is 1, so the final checkpointed token overshoots
it. -/
theorem c1_counterexample :
    (stopConsumer (consumeRun defaultConfig (initConsumer 0)
        [⟨1, 0, true, Except.ok true⟩, ⟨2, 0, false, Except.ok true⟩]) 0
        (Except.ok true)).queue.getLast? = some 1 ∧
    (stopConsumer (consumeRun defaultConfig (initConsumer 0)
        [⟨1, 0, true, Except.ok true⟩, ⟨2, 0, false, Except.ok true⟩]) 0
        (Except.ok true)).savedCheckpoints.getLast? = some 2 ∧
    ¬ ((stopConsumer (consumeRun defaultConfig (initConsumer 0)
        [⟨1, 0, true, Except.ok true⟩, ⟨2, 0, false, Except.ok true⟩]) 0
        (Except.ok true)).savedCheckpoints.getLast? =
       (stopConsumer (consumeRun defaultConfig (initConsumer 0)
        [⟨1, 0, true, Except.ok true⟩, ⟨2, 0, false, Except.ok true⟩]) 0
        (Except.ok true)).queue.getLast?) := by decide

/-- Claim C1 as amended: the in-memory resume token advances after every
processed event whether or not its enqueue succeeded (the enqueue error is
caught inside `_process_change`); when every enqueue succeeds, the queue
receives exactly the event tokens in order and the final checkpointed
token written at `stop()` equals the token of the last (and hence last
enqueued) event — no gap and no overshoot in that case. -/
theorem c1_amended_checkpoint_no_overshoot (cfg : Config)
    (events : List ChangeEvent) (startTime stopTime : Nat)
    (hne : events ≠ [])
    (hinc : List.Chain' (fun a b => a < b) (events.map ChangeEvent.token))
    (henq : ∀ e ∈ events, e.enqueueOk = true) :
    (stopConsumer (consumeRun cfg (initConsumer startTime) events) stopTime
        (Except.ok true)).queue = events.map ChangeEvent.token ∧
    (stopConsumer (consumeRun cfg (initConsumer startTime) events) stopTime
        (Except.ok true)).savedCheckpoints.getLast? =
      (events.map ChangeEvent.token).getLast? := by
  have hq : (consumeRun cfg (initConsumer startTime) events).queue =
      events.map ChangeEvent.token := by
    simpa [initConsumer] using consumeRun_queue cfg events (initConsumer startTime) henq
  have hrt := consumeRun_resumeToken cfg events (initConsumer startTime) hne
  have hmapne : events.map ChangeEvent.token ≠ [] := by
    cases events with
    | nil => exact absurd rfl hne
    | cons e es => simp
  obtain ⟨t, ht⟩ := Option.isSome_iff_exists.mp (List.getLast?_isSome.mpr hmapne)
  have hstop := stopConsumer_final (consumeRun cfg (initConsumer startTime) events)
    stopTime t (by rw [hrt, ht])
  refine ⟨?_, ?_⟩
  · rw [hstop.2, hq]
  · rw [hstop.1, ht]
    simp

/-- Witness for C1's amended statement: two successfully enqueued events
with tokens 1 and 2; the final checkpoint equals 2, the last enqueued
token. -/
theorem c1_amended_checkpoint_no_overshoot_witness :
    (stopConsumer (consumeRun defaultConfig (initConsumer 0)
        [⟨1, 0, true, Except.ok true⟩, ⟨2, 0, true, Except.ok true⟩]) 100
        (Except.ok true)).queue = [1, 2] ∧
    (stopConsumer (consumeRun defaultConfig (initConsumer 0)
        [⟨1, 0, true, Except.ok true⟩, ⟨2, 0, true, Except.ok true⟩]) 100
        (Except.ok true)).savedCheckpoints.getLast? =
      ([1, 2] : List Nat).getLast? :=
  c1_amended_checkpoint_no_overshoot defaultConfig
    [⟨1, 0, true, Except.ok true⟩, ⟨2, 0, true, Except.ok true⟩] 0 100
    (by decide) (by simp [List.chain'_cons]) (by decide)

/-- Claim C8: the bounded event queue never exceeds its capacity under any
operation sequence; a full queue makes `put` wait rather than drop (with
capacity 10, enqueueing a 10th event reaches occupancy exactly 10 with all
events kept in order, and an 11th enqueue changes nothing); and the
consumer inserts its backpressure pause whenever the queue size strictly
exceeds `QUEUE_PRESSURE_THRESHOLD`. -/
theorem c8_queue_bound_and_backpressure :
    (∀ (cap : Nat) (ops : List QueueOp), (queueRun cap ops).length ≤ cap) ∧
    queueRun 10 ((List.range 10).map QueueOp.enq) = List.range 10 ∧
    queueRun 10 ((List.range 10).map QueueOp.enq ++ [QueueOp.enq 10]) =
      List.range 10 ∧
    (∀ (cfg : Config) (s : ConsumerState) (e : ChangeEvent),
      cfg.queuePressureThreshold < (consumeStep cfg s e).state.queue.length →
      (consumeStep cfg s e).backpressurePause = true) := by
  refine ⟨?_, by decide, by decide, ?_⟩
  · intro cap ops
    exact foldl_queueStep_length_le cap ops [] (by simp)
  · intro cfg s e h
    have hdef : (consumeStep cfg s e).backpressurePause =
        decide (cfg.queuePressureThreshold <
          (consumeStep cfg s e).state.queue.length) := rfl
    rw [hdef]
    exact decide_eq_true h

/-- Witness for C8's backpressure part: capacity 10, high-water mark 8,
nine queued events plus one more processed event gives occupancy 10 and a
pause. -/
theorem c8_queue_bound_and_backpressure_witness :
    (consumeStep scenarioConfig
      { resumeToken := none, lastTokenSaveTime := 0, lastTokenSaveCount := 0,
        eventsSinceCheckpoint := 0, queue := [0, 1, 2, 3, 4, 5, 6, 7, 8],
        savedCheckpoints := [] }
      ⟨9, 0, true, Except.ok true⟩).backpressurePause = true :=
  c8_queue_bound_and_backpressure.2.2.2 scenarioConfig
    { resumeToken := none, lastTokenSaveTime := 0, lastTokenSaveCount := 0,
      eventsSinceCheckpoint := 0, queue := [0, 1, 2, 3, 4, 5, 6, 7, 8],
      savedCheckpoints := [] }
    ⟨9, 0, true, Except.ok true⟩ (by decide)

/-- Claim C4, counterexample: window 24 h, a checkpoint saved 30 h ago
(stale: older than the window, but within twice the window).  The claim
requires `saved_at` minus the safety buffer as a timestamp-typed token,
but `_get_resume_point` returns the native cursor token: the tier-1 read
only discards tokens older than twice the oplog window. -/
theorem c4_counterexample :
    getResumePoint defaultConfig
      { dbAvailable := true, readRaises := false,
        stored := some { hasTimestamp := true, savedAt := 0, hasToken := true,
                         token := 42 },
        cachedCheckpointTime := none } 1800
      = ResumePoint.nativeToken 42 ∧
    ResumePoint.nativeToken 42 ≠
      ResumePoint.timestampResume (0 - defaultConfig.resumeBufferMinutes) := by
  decide

/-- Claim C4 as amended: tier 1 returns the stored native cursor token
whenever a token-bearing checkpoint exists and — if it has a timestamp —
its age is at most twice `OPLOG_WINDOW_HOURS` (so a merely stale token is
still returned in native form); only when the stored read yields nothing
does tier 2 return the cached `saved_at` minus `RESUME_BUFFER_MINUTES` as
a timestamp token; with no checkpoint time known at all, tier 3 returns
now minus `SAFE_START_HOURS`.  An unreachable store is caught inside the
token read (which returns nothing) and therefore also falls through to
the later tiers instead of producing the `None` ("resume from now")
result. -/
theorem c4_amended_resume_tiers (cfg : Config) (tm : TokenStoreView)
    (now : Nat) :
    (∀ d, tm.dbAvailable = true → tm.readRaises = false → tm.stored = some d →
      d.hasToken = true →
      (d.hasTimestamp = true → now - d.savedAt ≤ 2 * (60 * cfg.oplogWindowHours)) →
      getResumePoint cfg tm now = ResumePoint.nativeToken d.token) ∧
    (getResumeToken cfg tm now = none →
      ∀ t, tm.cachedCheckpointTime = some t →
      getResumePoint cfg tm now =
        ResumePoint.timestampResume (t - cfg.resumeBufferMinutes)) ∧
    (getResumeToken cfg tm now = none → tm.cachedCheckpointTime = none →
      getResumePoint cfg tm now =
        ResumePoint.mongoTimestamp (now - 60 * cfg.safeStartHours)) := by
  refine ⟨?_, ?_, ?_⟩
  · intro d hdb hrr hst htok hage
    have hcond : (d.hasTimestamp &&
        decide (now - d.savedAt > 2 * (60 * cfg.oplogWindowHours))) = false := by
      cases hts : d.hasTimestamp
      · simp
      · simp only [Bool.true_and]
        exact decide_eq_false (Nat.not_lt.mpr (hage hts))
    have hget : getResumeToken cfg tm now = some d := by
      simp [getResumeToken, hdb, hrr, hst, hcond, htok]
    simp [getResumePoint, hget]
  · intro hnone t hcache
    simp [getResumePoint, hnone, getLastCheckpointTime, hcache]
  · intro hnone hcache
    simp [getResumePoint, hnone, getLastCheckpointTime, hcache]

/-- Witness for C4's amended tiers: a fresh token is returned natively; a
cache-known checkpoint time with an unreachable store read gives the
buffered timestamp; a disabled store with no cache gives the safe-start
timestamp. -/
theorem c4_amended_resume_tiers_witness :
    getResumePoint defaultConfig
      { dbAvailable := true, readRaises := false,
        stored := some { hasTimestamp := true, savedAt := 1000, hasToken := true,
                         token := 9 },
        cachedCheckpointTime := none } 1200
      = ResumePoint.nativeToken 9 ∧
    getResumePoint defaultConfig
      { dbAvailable := true, readRaises := true, stored := none,
        cachedCheckpointTime := some 50 } 1200
      = ResumePoint.timestampResume (50 - defaultConfig.resumeBufferMinutes) ∧
    getResumePoint defaultConfig
      { dbAvailable := false, readRaises := false, stored := none,
        cachedCheckpointTime := none } 1200
      = ResumePoint.mongoTimestamp (1200 - 60 * defaultConfig.safeStartHours) :=
  ⟨(c4_amended_resume_tiers defaultConfig _ 1200).1 _ rfl rfl rfl rfl
      (fun _ => by decide),
   (c4_amended_resume_tiers defaultConfig _ 1200).2.1 (by decide) 50 rfl,
   (c4_amended_resume_tiers defaultConfig _ 1200).2.2 (by decide) rfl⟩

/-- Claim C9: with Firestore available and the checkpoint document
present, `clear_token` issues exactly a read, then a write of the full
prior contents (plus deletion markers) to a distinct backup key, then the
delete of the checkpoint document — the archive write strictly precedes
the deletion; and no other token-manager operation
(`save_resume_token`, `get_resume_token`, `initialize`,
`_save_error_state`) ever issues a delete of the checkpoint document. -/
theorem c9_clear_token_archives_before_delete (docId : String) (d : DocData)
    (now : Nat) :
    clearTokenActions docId true (some d) now =
      [StoreAction.readDoc docId,
       StoreAction.setDoc (backupDocId docId now)
         (d ++ [("deleted_at", FsValue.timeVal now),
                ("deleted_by", FsValue.strVal "manual_clear")]) false,
       StoreAction.deleteDoc docId] ∧
    backupDocId docId now ≠ docId ∧
    (∀ (cfg : Config) (s : TokenManagerState) (token tNow events : Nat)
        (writeOk slowSave : Bool),
      StoreAction.deleteDoc docId ∉
        (saveResumeToken cfg docId s token tNow events writeOk slowSave).actions) ∧
    (∀ dbAvailable : Bool,
      StoreAction.deleteDoc docId ∉ getResumeTokenActions docId dbAvailable) ∧
    (∀ enableFirestore : Bool,
      StoreAction.deleteDoc docId ∉ initTokenManagerActions docId enableFirestore) ∧
    (∀ (dbAvailable : Bool) (errData : DocData),
      StoreAction.deleteDoc docId ∉
        saveErrorStateActions docId dbAvailable errData) := by
  refine ⟨by simp [clearTokenActions], ?_, ?_, ?_, ?_, ?_⟩
  · intro h
    have hlen := congrArg String.length h
    rw [backupDocId] at hlen
    have h8 : ("_backup_" : String).length = 8 := rfl
    simp only [String.length_append, h8] at hlen
    omega
  · intro cfg s token tNow events writeOk slowSave
    cases hdb : s.dbAvailable <;> cases hsp : s.saveInProgress <;>
      cases writeOk <;> cases slowSave <;>
        simp [saveResumeToken, hdb, hsp]
  · intro dbAvailable
    cases dbAvailable <;> simp [getResumeTokenActions]
  · intro enableFirestore
    cases enableFirestore <;> simp [initTokenManagerActions]
  · intro dbAvailable errData
    cases dbAvailable <;> simp [saveErrorStateActions]

/-- Witness for C9 at the default document id. -/
theorem c9_clear_token_archives_before_delete_witness :
    backupDocId "mongo_change_stream" 5 ≠ "mongo_change_stream" ∧
    StoreAction.deleteDoc "mongo_change_stream" ∉
      (saveResumeToken defaultConfig "mongo_change_stream"
        ⟨true, false, none, none, 0, 0, 0⟩ 1 2 3 true false).actions :=
  ⟨(c9_clear_token_archives_before_delete "mongo_change_stream" [] 5).2.1,
   (c9_clear_token_archives_before_delete "mongo_change_stream" [] 5).2.2.1
      defaultConfig ⟨true, false, none, none, 0, 0, 0⟩ 1 2 3 true false⟩

/-- Claim C10: `save_resume_token` with Firestore unavailable or a save
already in progress returns `False`, issues no store call and leaves the
manager state (cache and counters) unchanged; and a `True` result implies
the token document write was issued and the cache updated
(`last_saved_token`, `last_checkpoint_time`, `total_saves`
incremented). -/
theorem c10_save_guard_and_success (cfg : Config) (docId : String)
    (s : TokenManagerState) (token now events : Nat) (writeOk slowSave : Bool) :
    ((s.dbAvailable = false ∨ s.saveInProgress = true) →
      saveResumeToken cfg docId s token now events writeOk slowSave =
        ⟨false, s, []⟩) ∧
    ((saveResumeToken cfg docId s token now events writeOk slowSave).result = true →
      (saveResumeToken cfg docId s token now events writeOk slowSave).state.lastSavedToken
          = some token ∧
      (saveResumeToken cfg docId s token now events writeOk slowSave).state.lastCheckpointTime
          = some now ∧
      (saveResumeToken cfg docId s token now events writeOk slowSave).state.totalSaves
          = s.totalSaves + 1 ∧
      StoreAction.setDoc docId (tokenDocData cfg token now events s.totalSaves) true ∈
        (saveResumeToken cfg docId s token now events writeOk slowSave).actions) := by
  constructor
  · rintro (h | h) <;> simp [saveResumeToken, h]
  · intro hres
    cases hdb : s.dbAvailable with
    | false => simp [saveResumeToken, hdb] at hres
    | true =>
      cases hsp : s.saveInProgress with
      | true => simp [saveResumeToken, hdb, hsp] at hres
      | false =>
        cases hw : writeOk with
        | false => simp [saveResumeToken, hdb, hsp, hw] at hres
        | true => simp [saveResumeToken, hdb, hsp, hw]

/-- Witness for C10: a save skipped because one is in progress, and a
successful save bumping `total_saves` from 4 to 5. -/
theorem c10_save_guard_and_success_witness :
    saveResumeToken defaultConfig "mongo_change_stream"
      ⟨true, true, none, none, 0, 0, 0⟩ 1 2 3 true false =
      ⟨false, ⟨true, true, none, none, 0, 0, 0⟩, []⟩ ∧
    (saveResumeToken defaultConfig "mongo_change_stream"
      ⟨true, false, none, none, 4, 0, 0⟩ 1 2 3 true false).state.totalSaves = 5 :=
  ⟨(c10_save_guard_and_success defaultConfig "mongo_change_stream"
      ⟨true, true, none, none, 0, 0, 0⟩ 1 2 3 true false).1 (Or.inr rfl),
   ((c10_save_guard_and_success defaultConfig "mongo_change_stream"
      ⟨true, false, none, none, 4, 0, 0⟩ 1 2 3 true false).2 rfl).2.2.1⟩

end Ingestor
